import Mathlib

/-!
Shallow embedding of the s3-filesystem crate's sync engine (`src/fs.rs`):
the operations `open_s3`, `write_s3` and `walkdir` on an `OpenOptions`
configuration, modelled over an explicit local-filesystem state, an oracle
supplying the remote S3 responses, and a trace of the local and remote
effects each call performs.  Local filesystem primitives are modelled as
infallible (OS-level I/O errors are outside the verified claims); the remote
client's behaviour is an input to each call.
-/

/-- A byte, as a natural number (0..255 in practice; the bound is irrelevant
to the verified properties). -/
abbrev Byte := Nat

/-- File contents / buffers: a byte sequence. -/
abbrev Bytes := List Byte

/-- A Rust `Path` argument: either UTF-8 decodable (`to_str` returns `Some`)
or not (`to_str` returns `None`).  Non-decodable paths are kept opaque,
identified by their raw byte listing; the library only ever inspects them
through `to_str`. -/
inductive RPath where
  | valid (s : String)
  | invalid (bytes : List Nat)
deriving DecidableEq, Repr

/-- Model of `Path::to_str`. -/
def RPath.toStr : RPath → Option String
  | .valid s => some s
  | .invalid _ => none

/-- Characters of the parent path: everything strictly before the last `/`
separator.  Models `Path::parent` for the slash-joined paths this library
builds. -/
def parentChars (l : List Char) : List Char :=
  ((l.reverse.dropWhile (fun c => !(c == '/'))).drop 1).reverse

/-- Model of `PathBuf::parent` as used for `create_dir_all`.  A non-decodable
path's parent is likewise non-decodable and is kept opaque; it only ever
appears as an effect-trace argument. -/
def RPath.parentDir : RPath → RPath
  | .valid s => .valid ⟨parentChars s.data⟩
  | .invalid b => .invalid b

/-- The error container `S3FilesystemError` of `src/error.rs`, restricted to
the variants the modelled code paths can produce: a remote SDK error (`S3`),
a body-stream error (`ByteStream`), and the `io::ErrorKind::InvalidInput`
error built for non-UTF-8 paths (`Io`). -/
inductive S3FsError where
  | s3
  | byteStream
  | ioInvalidInput
deriving DecidableEq, Repr

/-- One observable step a call performs, in order: local directory creation,
local file open/create, local file removal, and the three remote requests. -/
inductive Effect where
  | createDirAll (p : RPath)
  | openLocal (p : RPath)
  | removeLocal (p : RPath)
  | remoteGet (bucket key : String)
  | remotePut (bucket key : String) (body : Bytes)
  | remoteList (bucket pfx : String)
deriving DecidableEq, Repr

/-- Whether an effect is a remote call (as a call-counting stub client would
observe). -/
def Effect.isRemote : Effect → Bool
  | .remoteGet _ _ => true
  | .remotePut _ _ _ => true
  | .remoteList _ _ => true
  | _ => false

/-- Whether an effect is a remote upload. -/
def Effect.isPut : Effect → Bool
  | .remotePut _ _ _ => true
  | _ => false

/-- The local filesystem: an association list from paths to file contents. -/
structure FS where
  files : List (RPath × Bytes)
deriving DecidableEq, Repr

/-- Look a file up (model of `fs::metadata` existence checks and of reading
a file's current content). -/
def FS.lookup (fs : FS) (p : RPath) : Option Bytes :=
  match fs.files.find? (fun e => e.1 == p) with
  | some e => some e.2
  | none => none

/-- Create or replace the file at `p` with content `c`. -/
def FS.insert (fs : FS) (p : RPath) (c : Bytes) : FS :=
  ⟨(p, c) :: fs.files.filter (fun e => !(e.1 == p))⟩

/-- Remove the file at `p` (model of `fs::remove_file`). -/
def FS.erase (fs : FS) (p : RPath) : FS :=
  ⟨fs.files.filter (fun e => !(e.1 == p))⟩

/-- An open `tokio::fs::File` handle: the path it refers to and the current
cursor offset. -/
structure Handle where
  path : RPath
  cursor : Nat
deriving DecidableEq, Repr

/-- Read everything from the handle's cursor to end of file (what an
immediate `read_to_end` on the returned handle would yield). -/
def readAll (fs : FS) (h : Handle) : Bytes :=
  ((fs.lookup h.path).getD []).drop h.cursor

/-- The `OpenOptions` configuration of `src/fs.rs` (the `s3_client` field is
not carried: the remote client's behaviour enters each call as an explicit
response oracle). -/
structure OpenOptions where
  bucket : String
  mount_path : String
  force_download : Bool
deriving DecidableEq, Repr

/-- The character replacement underlying `replace("\\", "/")`. -/
def normChar (c : Char) : Char :=
  if c == '\\' then '/' else c

/-- Model of `path.replace("\\", "/")`: every backslash becomes a forward
slash. -/
def normalizeKey (s : String) : String :=
  ⟨s.data.map normChar⟩

/-- The local mirror path as a string, for a UTF-8 key:
`mount_path.join(&bucket).join(&path)`, `Path::join` appending with a
separator. -/
def mirrorStr (o : OpenOptions) (k : String) : String :=
  o.mount_path ++ "/" ++ o.bucket ++ "/" ++ k

/-- `full_data_path = self.mount_path.join(&self.bucket).join(&path)`.
For a non-decodable key the joined path is likewise non-decodable and kept
opaque. -/
def full_data_path (o : OpenOptions) (p : RPath) : RPath :=
  match p with
  | .valid s => .valid (mirrorStr o s)
  | .invalid b => .invalid b

/-- Overwrite `b` into `c` starting at offset `pos`, extending the file as
needed (zero-fill models sparse extension past end of file; the modelled
call sites always have `pos ≤ c.length`).  This is positional file writing
WITHOUT truncation: bytes of `c` past `pos + b.length` survive. -/
def writeAt (c : Bytes) (pos : Nat) (b : Bytes) : Bytes :=
  c.take pos ++ List.replicate (pos - c.length) 0 ++ b ++ c.drop (pos + b.length)

/-- The download loop of `open_s3`: each arriving chunk is written at the
current cursor (`File::write` modelled as writing the whole chunk), the
cursor advancing past it.  Returns the final content and cursor. -/
def writeChunks : List Bytes → Bytes → Nat → Bytes × Nat
  | [], c, pos => (c, pos)
  | b :: bs, c, pos => writeChunks bs (writeAt c pos b) (pos + b.length)

/-- A successful `GetObject` response: the body chunks that arrive, and
whether the body stream fails (`try_next` returning an error) after those
chunks instead of ending cleanly. -/
structure GetOk where
  chunks : List Bytes
  bodyErr : Bool
deriving DecidableEq, Repr

/-- The remote `GetObject` outcome: `error` is a failed `send()`. -/
abbrev GetResp := Except Unit GetOk

/-- The remote `PutObject` outcome: `error` is a failed `send()`. -/
abbrev PutResp := Except Unit Unit

/-- One object of a `ListObjectsV2` response: `key()` may be absent, `size`
is the store-reported size. -/
structure S3Object where
  key : Option String
  size : Int
deriving DecidableEq, Repr

/-- The remote `ListObjectsV2` outcome. -/
abbrev ListResp := Except Unit (List S3Object)

/-- The `DirEntry` of `src/fs.rs` (its `path : PathBuf` is modelled as the
UTF-8 string the listing returned). -/
structure DirEntry where
  path : String
  size : Int
  folder : Bool
deriving DecidableEq, Repr

/-- Model of `filepath.ends_with("/")`: a suffix test against `"/"`. -/
def strEndsWith (s t : String) : Bool :=
  t.data.isSuffixOf s.data

deriving instance DecidableEq for Except

/-- Outcome of `open_s3` / `write_s3`: the returned `Result`, the local
filesystem afterwards, and the ordered effect trace. -/
structure SyncResult where
  result : Except S3FsError Handle
  fs : FS
  effects : List Effect
deriving DecidableEq, Repr

/-- Shallow embedding of `OpenOptions::open_s3` (src/fs.rs:136-190),
step for step in source order:
1. build `full_data_path`;
2. `to_str`: a non-decodable path returns the InvalidInput error before any
   local or remote I/O; otherwise backslashes are replaced to form the
   remote key;
3. existence check: if the mirror file exists and `force_download` is false,
   reopen it read-only and return it (no remote call);
4. otherwise create parent directories, open/create the mirror file for
   read+write WITHOUT truncation, and issue the remote `GetObject`;
5. a failed `send()` removes the local file and returns the S3 error;
6. body chunks are written in arrival order at the advancing cursor; a body
   stream error propagates WITHOUT removing the file;
7. on success the cursor is repositioned to 0 and the handle returned. -/
def open_s3 (o : OpenOptions) (path : RPath) (resp : GetResp) (fs : FS) :
    SyncResult :=
  let full := full_data_path o path
  match path.toStr with
  | none => ⟨.error .ioInvalidInput, fs, []⟩
  | some p =>
    let s3_data_path := normalizeKey p
    let exists_ := (fs.lookup full).isSome
    if exists_ && !o.force_download then
      ⟨.ok ⟨full, 0⟩, fs, [.openLocal full]⟩
    else
      let content0 := (fs.lookup full).getD []
      let fs1 := fs.insert full content0
      let effs : List Effect :=
        [.createDirAll full.parentDir, .openLocal full,
         .remoteGet o.bucket s3_data_path]
      match resp with
      | .error _ =>
        ⟨.error .s3, fs1.erase full, effs ++ [.removeLocal full]⟩
      | .ok g =>
        let wc := writeChunks g.chunks content0 0
        let fs2 := fs1.insert full wc.1
        if g.bodyErr then
          ⟨.error .byteStream, fs2, effs⟩
        else
          ⟨.ok ⟨full, 0⟩, fs2, effs⟩

/-- Shallow embedding of `OpenOptions::write_s3` (src/fs.rs:224-268),
step for step in source order:
1. build `full_data_path` and create its parent directories — this local
   I/O happens BEFORE the `to_str` check;
2. `to_str`: a non-decodable path returns the InvalidInput error (after the
   directory creation, before the file open and any remote call);
3. open/create the mirror file for read+write WITHOUT truncation and
   `write_all` the buffer at offset 0 (bytes of a longer pre-existing file
   past the buffer survive);
4. `ByteStream::from_path` re-reads the file's resulting content as the
   upload body and the remote `PutObject` is issued;
5. a failed `send()` removes the local file and returns the S3 error; on
   success the handle is returned with its cursor left after the written
   bytes (no seek). -/
def write_s3 (o : OpenOptions) (path : RPath) (buf : Bytes) (resp : PutResp)
    (fs : FS) : SyncResult :=
  let full := full_data_path o path
  let effs0 : List Effect := [.createDirAll full.parentDir]
  match path.toStr with
  | none => ⟨.error .ioInvalidInput, fs, effs0⟩
  | some p =>
    let s3_data_path := normalizeKey p
    let content0 := (fs.lookup full).getD []
    let c1 := writeAt content0 0 buf
    let fs1 := fs.insert full c1
    let effs : List Effect :=
      effs0 ++ [.openLocal full, .remotePut o.bucket s3_data_path c1]
    match resp with
    | .ok _ => ⟨.ok ⟨full, buf.length⟩, fs1, effs⟩
    | .error _ => ⟨.error .s3, fs1.erase full, effs ++ [.removeLocal full]⟩

/-- The accumulation loop of `walkdir` over the listed objects: objects with
no retrievable key are skipped; every other object yields a `DirEntry`
carrying the key, the store-reported size verbatim, and a folder flag set
exactly when the key ends with `"/"`. -/
def walkdirLoop : List S3Object → List DirEntry
  | [] => []
  | obj :: rest =>
    match obj.key with
    | none => walkdirLoop rest
    | some k => ⟨k, obj.size, strEndsWith k "/"⟩ :: walkdirLoop rest

/-- Shallow embedding of `OpenOptions::walkdir` (src/fs.rs:299-340): the
`to_str` check fails with InvalidInput before any effect; otherwise the
prefix string is passed to `ListObjectsV2` verbatim (no separator
normalization); a failed `send()` propagates the S3 error; on success the
objects are folded into `DirEntry` values. -/
def walkdir (o : OpenOptions) (path : RPath) (resp : ListResp) :
    Except S3FsError (List DirEntry) × List Effect :=
  match path.toStr with
  | none => (.error .ioInvalidInput, [])
  | some p =>
    match resp with
    | .error _ => (.error .s3, [Effect.remoteList o.bucket p])
    | .ok objs => (.ok (walkdirLoop objs), [Effect.remoteList o.bucket p])

/-! ### Path-component machinery (for separator-style claims) -/

/-- Split a character list into the (possibly empty) segments between
separator characters. -/
def splitSeps (isSep : Char → Bool) : List Char → List (List Char)
  | [] => [[]]
  | c :: cs =>
    match splitSeps isSep cs with
    | [] => [[]]
    | g :: gs => if isSep c then [] :: g :: gs else (c :: g) :: gs

/-- Path components: the nonempty segments between separators.  Comparing
two paths' components is path equality on a platform whose separator set is
`isSep`. -/
def componentsOf (isSep : Char → Bool) (s : String) : List (List Char) :=
  (splitSeps isSep s.data).filter (fun g => !g.isEmpty)

/-- The separator set of a platform (Windows) on which the backslash is a
local-native path separator alongside the forward slash. -/
def winSep (c : Char) : Bool :=
  c == '/' || c == '\\'

/-! ### Helper lemmas -/

theorem splitSeps_ne_nil (isSep : Char → Bool) (l : List Char) :
    splitSeps isSep l ≠ [] := by
  cases l with
  | nil => simp [splitSeps]
  | cons c cs =>
    simp only [splitSeps]
    cases h : splitSeps isSep cs with
    | nil => simp
    | cons g gs =>
      by_cases hs : isSep c <;> simp [hs]

theorem splitSeps_map_normChar (l : List Char) :
    splitSeps winSep (l.map normChar) = splitSeps winSep l := by
  induction l with
  | nil => rfl
  | cons c cs ih =>
    simp only [List.map_cons, splitSeps, ih]
    cases h : splitSeps winSep cs with
    | nil => exact absurd h (splitSeps_ne_nil _ _)
    | cons g gs =>
      by_cases hc : c = '\\'
      · subst hc; simp [normChar, winSep]
      · have : normChar c = c := by simp [normChar, hc]
        rw [this]

theorem splitSeps_append_congr (isSep : Char → Bool) (p l₁ l₂ : List Char)
    (h : splitSeps isSep l₁ = splitSeps isSep l₂) :
    splitSeps isSep (p ++ l₁) = splitSeps isSep (p ++ l₂) := by
  induction p with
  | nil => simpa using h
  | cons c cs ih =>
    show splitSeps isSep (c :: (cs ++ l₁)) = splitSeps isSep (c :: (cs ++ l₂))
    unfold splitSeps
    rw [ih]

theorem find?_filter_ne (l : List (RPath × Bytes)) (p q : RPath) (h : q ≠ p) :
    (l.filter (fun e => !(e.1 == p))).find? (fun e => e.1 == q)
      = l.find? (fun e => e.1 == q) := by
  have hpq : (p == q) = false := by
    simp only [beq_eq_false_iff_ne]
    exact fun hh => h hh.symm
  induction l with
  | nil => rfl
  | cons e rest ih =>
    by_cases hp : e.1 = p
    · simp [List.filter_cons, hp, List.find?_cons, hpq, ih]
    · by_cases hq : e.1 = q
      · simp [List.filter_cons, hp, hq, List.find?_cons, h]
      · simp [List.filter_cons, hp, List.find?_cons, hq, ih]

theorem find?_filter_self (l : List (RPath × Bytes)) (p : RPath) :
    (l.filter (fun e => !(e.1 == p))).find? (fun e => e.1 == p) = none := by
  induction l with
  | nil => rfl
  | cons e rest ih =>
    by_cases hp : e.1 = p
    · simp [List.filter_cons, hp, ih]
    · simp [List.filter_cons, hp, List.find?_cons, ih]

theorem FS.lookup_insert (fs : FS) (p q : RPath) (c : Bytes) :
    (fs.insert p c).lookup q = if q = p then some c else fs.lookup q := by
  unfold FS.insert FS.lookup
  by_cases h : q = p
  · subst h; simp [List.find?_cons]
  · have hne : (p == q) = false := by simp; exact fun hqq => h hqq.symm
    simp only [List.find?_cons, hne, if_neg h]
    rw [find?_filter_ne _ _ _ h]

theorem FS.lookup_erase (fs : FS) (p q : RPath) :
    (fs.erase p).lookup q = if q = p then none else fs.lookup q := by
  unfold FS.erase FS.lookup
  by_cases h : q = p
  · subst h
    rw [if_pos rfl, find?_filter_self]
  · rw [if_neg h, find?_filter_ne _ _ _ h]

theorem writeAt_boundary (front tail b : Bytes) :
    writeAt (front ++ tail) front.length b
      = front ++ b ++ tail.drop b.length := by
  unfold writeAt
  rw [List.take_left]
  have h1 : front.length - (front ++ tail).length = 0 := by
    simp [List.length_append]
  have h2 : (front ++ tail).drop (front.length + b.length)
      = tail.drop b.length := by
    rw [← List.drop_drop, List.drop_left]
  rw [h1, h2, List.replicate_zero]
  simp

theorem writeChunks_boundary (chunks : List Bytes) (front tail : Bytes) :
    writeChunks chunks (front ++ tail) front.length
      = (front ++ chunks.flatten ++ tail.drop chunks.flatten.length,
         front.length + chunks.flatten.length) := by
  induction chunks generalizing front tail with
  | nil => simp [writeChunks]
  | cons b bs ih =>
    simp only [writeChunks, writeAt_boundary]
    have har : front ++ b ++ tail.drop b.length
        = (front ++ b) ++ tail.drop b.length := by simp
    have hlen : front.length + b.length = (front ++ b).length := by
      simp [List.length_append]
    rw [har, hlen, ih (front ++ b) (tail.drop b.length)]
    simp [List.drop_drop, List.length_append]
    omega

/-! ### Branch equations for the three operations -/

theorem open_s3_invalid (o : OpenOptions) (b : List Nat) (resp : GetResp)
    (fs : FS) :
    open_s3 o (.invalid b) resp fs = ⟨.error .ioInvalidInput, fs, []⟩ := rfl

theorem open_s3_hit (o : OpenOptions) (k : String) (resp : GetResp) (fs : FS)
    (hex : (fs.lookup (full_data_path o (.valid k))).isSome = true)
    (hf : o.force_download = false) :
    open_s3 o (.valid k) resp fs
      = ⟨.ok ⟨full_data_path o (.valid k), 0⟩, fs,
         [.openLocal (full_data_path o (.valid k))]⟩ := by
  unfold open_s3
  simp [RPath.toStr, hex, hf]

theorem open_s3_miss_getErr (o : OpenOptions) (k : String) (fs : FS)
    (hmiss : ((fs.lookup (full_data_path o (.valid k))).isSome
        && !o.force_download) = false) :
    open_s3 o (.valid k) (.error ()) fs
      = ⟨.error .s3,
         (fs.insert (full_data_path o (.valid k))
            ((fs.lookup (full_data_path o (.valid k))).getD
              [])).erase (full_data_path o (.valid k)),
         [.createDirAll (full_data_path o (.valid k)).parentDir,
          .openLocal (full_data_path o (.valid k)),
          .remoteGet o.bucket (normalizeKey k),
          .removeLocal (full_data_path o (.valid k))]⟩ := by
  unfold open_s3
  simp [RPath.toStr, hmiss]

theorem open_s3_miss_ok (o : OpenOptions) (k : String) (g : GetOk) (fs : FS)
    (hmiss : ((fs.lookup (full_data_path o (.valid k))).isSome
        && !o.force_download) = false)
    (hb : g.bodyErr = false) :
    open_s3 o (.valid k) (.ok g) fs
      = ⟨.ok ⟨full_data_path o (.valid k), 0⟩,
         (fs.insert (full_data_path o (.valid k))
            ((fs.lookup (full_data_path o (.valid k))).getD [])).insert
           (full_data_path o (.valid k))
           (writeChunks g.chunks
             ((fs.lookup (full_data_path o (.valid k))).getD []) 0).1,
         [.createDirAll (full_data_path o (.valid k)).parentDir,
          .openLocal (full_data_path o (.valid k)),
          .remoteGet o.bucket (normalizeKey k)]⟩ := by
  unfold open_s3
  simp [RPath.toStr, hmiss, hb]

theorem open_s3_miss_bodyErr (o : OpenOptions) (k : String) (g : GetOk)
    (fs : FS)
    (hmiss : ((fs.lookup (full_data_path o (.valid k))).isSome
        && !o.force_download) = false)
    (hb : g.bodyErr = true) :
    open_s3 o (.valid k) (.ok g) fs
      = ⟨.error .byteStream,
         (fs.insert (full_data_path o (.valid k))
            ((fs.lookup (full_data_path o (.valid k))).getD [])).insert
           (full_data_path o (.valid k))
           (writeChunks g.chunks
             ((fs.lookup (full_data_path o (.valid k))).getD []) 0).1,
         [.createDirAll (full_data_path o (.valid k)).parentDir,
          .openLocal (full_data_path o (.valid k)),
          .remoteGet o.bucket (normalizeKey k)]⟩ := by
  unfold open_s3
  simp [RPath.toStr, hmiss, hb]

theorem write_s3_invalid (o : OpenOptions) (b : List Nat) (buf : Bytes)
    (resp : PutResp) (fs : FS) :
    write_s3 o (.invalid b) buf resp fs
      = ⟨.error .ioInvalidInput, fs,
         [.createDirAll (RPath.invalid b)]⟩ := rfl

theorem write_s3_putOk (o : OpenOptions) (k : String) (buf : Bytes)
    (fs : FS) :
    write_s3 o (.valid k) buf (.ok ()) fs
      = ⟨.ok ⟨full_data_path o (.valid k), buf.length⟩,
         fs.insert (full_data_path o (.valid k))
           (writeAt ((fs.lookup (full_data_path o (.valid k))).getD [])
             0 buf),
         [.createDirAll (full_data_path o (.valid k)).parentDir,
          .openLocal (full_data_path o (.valid k)),
          .remotePut o.bucket (normalizeKey k)
            (writeAt ((fs.lookup (full_data_path o (.valid k))).getD [])
              0 buf)]⟩ := rfl

theorem write_s3_putErr (o : OpenOptions) (k : String) (buf : Bytes)
    (fs : FS) :
    write_s3 o (.valid k) buf (.error ()) fs
      = ⟨.error .s3,
         (fs.insert (full_data_path o (.valid k))
           (writeAt ((fs.lookup (full_data_path o (.valid k))).getD [])
             0 buf)).erase (full_data_path o (.valid k)),
         [.createDirAll (full_data_path o (.valid k)).parentDir,
          .openLocal (full_data_path o (.valid k)),
          .remotePut o.bucket (normalizeKey k)
            (writeAt ((fs.lookup (full_data_path o (.valid k))).getD [])
              0 buf),
          .removeLocal (full_data_path o (.valid k))]⟩ := rfl

theorem walkdir_invalid (o : OpenOptions) (b : List Nat) (resp : ListResp) :
    walkdir o (.invalid b) resp = (.error .ioInvalidInput, []) := rfl

theorem walkdir_listErr (o : OpenOptions) (p : String) :
    walkdir o (.valid p) (.error ())
      = (.error .s3, [Effect.remoteList o.bucket p]) := rfl

theorem walkdir_listOk (o : OpenOptions) (p : String) (objs : List S3Object) :
    walkdir o (.valid p) (.ok objs)
      = (.ok (walkdirLoop objs), [Effect.remoteList o.bucket p]) := rfl

/-! ### Trace counting and further supporting lemmas -/

/-- Number of remote calls in an effect trace (what a call-counting stub
client observes). -/
def remoteCount (effs : List Effect) : Nat :=
  (effs.filter Effect.isRemote).length

/-- Number of remote uploads in an effect trace. -/
def putCount (effs : List Effect) : Nat :=
  (effs.filter Effect.isPut).length

theorem strEndsWith_slash_iff (s : String) :
    strEndsWith s "/" = true ↔ s.data.getLast? = some '/' := by
  have hdata : ("/" : String).data = ['/'] := rfl
  unfold strEndsWith
  rw [hdata, List.getLast?_eq_head?_reverse]
  unfold List.isSuffixOf
  have hrev : (['/'] : List Char).reverse = ['/'] := rfl
  rw [hrev]
  cases h : s.data.reverse with
  | nil => simp [List.isPrefixOf]
  | cons c t =>
    simp only [List.isPrefixOf, Bool.and_eq_true, beq_iff_eq, List.head?_cons,
      Option.some.injEq]
    constructor
    · intro hx
      exact hx.1.symm
    · intro hx
      exact ⟨hx.symm, trivial⟩

theorem strEndsWith_slash_eq_decide (s : String) :
    strEndsWith s "/" = decide (s.data.getLast? = some '/') := by
  by_cases h : s.data.getLast? = some '/'
  · rw [(strEndsWith_slash_iff s).mpr h]
    exact (decide_eq_true h).symm
  · have hb : strEndsWith s "/" = false := by
      cases hsb : strEndsWith s "/"
      · rfl
      · exact absurd ((strEndsWith_slash_iff s).mp hsb) h
    rw [hb, decide_eq_false h]

theorem writeAt_zero (c b : Bytes) : writeAt c 0 b = b ++ c.drop b.length := by
  simp [writeAt]

theorem writeChunks_nil_zero (chunks : List Bytes) :
    (writeChunks chunks [] 0).1 = chunks.flatten := by
  have h := writeChunks_boundary chunks [] []
  simpa using congrArg Prod.fst h

/-! ### Claim theorems -/

/-- Claim C2 (confirmed): for every key whose local mirror file already
exists, with the freshness flag "trust local" (`force_download = false`),
`open_s3` completes without issuing any remote call and returns a handle at
cursor 0 onto the byte-for-byte existing local content, leaving the local
state unchanged — whatever the remote would have answered. -/
theorem cache_hit_purity (o : OpenOptions) (k : String) (resp : GetResp)
    (fs : FS) (c : Bytes)
    (hc : fs.lookup (full_data_path o (.valid k)) = some c)
    (hf : o.force_download = false) :
    (open_s3 o (.valid k) resp fs).result
        = .ok ⟨full_data_path o (.valid k), 0⟩
      ∧ (open_s3 o (.valid k) resp fs).fs = fs
      ∧ readAll fs ⟨full_data_path o (.valid k), 0⟩ = c
      ∧ remoteCount (open_s3 o (.valid k) resp fs).effects = 0 := by
  have hex : (fs.lookup (full_data_path o (.valid k))).isSome = true := by
    rw [hc]; rfl
  rw [open_s3_hit o k resp fs hex hf]
  refine ⟨rfl, rfl, ?_, rfl⟩
  unfold readAll
  rw [hc]
  rfl

/-- Concrete instance of the cache-hit purity theorem: bucket `"b"`, mount
`"m"`, key `"k"`, existing local content `[1, 2]`, remote answering with an
error that is never consulted. -/
theorem cache_hit_purity_witness :
    (open_s3 ⟨"b", "m", false⟩ (.valid "k") (.error ())
        ⟨[(.valid "m/b/k", [1, 2])]⟩).result
        = .ok ⟨full_data_path ⟨"b", "m", false⟩ (.valid "k"), 0⟩
      ∧ (open_s3 ⟨"b", "m", false⟩ (.valid "k") (.error ())
          ⟨[(.valid "m/b/k", [1, 2])]⟩).fs = ⟨[(.valid "m/b/k", [1, 2])]⟩
      ∧ readAll ⟨[(.valid "m/b/k", [1, 2])]⟩
          ⟨full_data_path ⟨"b", "m", false⟩ (.valid "k"), 0⟩ = [1, 2]
      ∧ remoteCount (open_s3 ⟨"b", "m", false⟩ (.valid "k") (.error ())
          ⟨[(.valid "m/b/k", [1, 2])]⟩).effects = 0 :=
  cache_hit_purity ⟨"b", "m", false⟩ "k" (.error ())
    ⟨[(.valid "m/b/k", [1, 2])]⟩ [1, 2] (by decide) rfl

/-- Claim C8 (confirmed): for a key with no file at its mirror path, a
successful `open_s3` (body stream ending cleanly) creates the mirror file
with content byte-identical to the concatenation of the body chunks in
arrival order, and returns a handle whose cursor is at offset 0, reading
exactly those bytes. -/
theorem cache_miss_fetch (o : OpenOptions) (k : String) (g : GetOk) (fs : FS)
    (habs : fs.lookup (full_data_path o (.valid k)) = none)
    (hb : g.bodyErr = false) :
    (open_s3 o (.valid k) (.ok g) fs).result
        = .ok ⟨full_data_path o (.valid k), 0⟩
      ∧ (open_s3 o (.valid k) (.ok g) fs).fs.lookup
          (full_data_path o (.valid k)) = some g.chunks.flatten
      ∧ readAll (open_s3 o (.valid k) (.ok g) fs).fs
          ⟨full_data_path o (.valid k), 0⟩ = g.chunks.flatten := by
  have hmiss : ((fs.lookup (full_data_path o (.valid k))).isSome
      && !o.force_download) = false := by
    rw [habs]; rfl
  rw [open_s3_miss_ok o k g fs hmiss hb]
  have hwc : (writeChunks g.chunks
      ((fs.lookup (full_data_path o (.valid k))).getD []) 0).1
        = g.chunks.flatten := by
    rw [habs]
    exact writeChunks_nil_zero g.chunks
  refine ⟨rfl, ?_, ?_⟩
  · rw [FS.lookup_insert, if_pos rfl, hwc]
  · unfold readAll
    rw [FS.lookup_insert, if_pos rfl, hwc]
    rfl

/-- Concrete instance of the cache-miss fetch theorem: chunks `[1]` then
`[2, 3]` arrive; the mirror file ends up holding `[1, 2, 3]`. -/
theorem cache_miss_fetch_witness :
    (open_s3 ⟨"b", "m", false⟩ (.valid "k") (.ok ⟨[[1], [2, 3]], false⟩)
        ⟨[]⟩).result
        = .ok ⟨full_data_path ⟨"b", "m", false⟩ (.valid "k"), 0⟩
      ∧ (open_s3 ⟨"b", "m", false⟩ (.valid "k") (.ok ⟨[[1], [2, 3]], false⟩)
          ⟨[]⟩).fs.lookup (full_data_path ⟨"b", "m", false⟩ (.valid "k"))
        = some ([[1], [2, 3]] : List Bytes).flatten
      ∧ readAll (open_s3 ⟨"b", "m", false⟩ (.valid "k")
            (.ok ⟨[[1], [2, 3]], false⟩) ⟨[]⟩).fs
          ⟨full_data_path ⟨"b", "m", false⟩ (.valid "k"), 0⟩
        = ([[1], [2, 3]] : List Bytes).flatten :=
  cache_miss_fetch ⟨"b", "m", false⟩ "k" ⟨[[1], [2, 3]], false⟩ ⟨[]⟩ rfl rfl

/-- Claim C9 counterexample: writing `[9, 9]` over a pre-existing longer
mirror file `[1, 2, 3, 4]` returns the handle at cursor 2, and an immediate
read from it yields the stale tail `[3, 4]` — not "no bytes", refuting the
claim's final clause. -/
theorem write_stale_tail_readable :
    (write_s3 ⟨"b", "m", false⟩ (.valid "k") [9, 9] (.ok ())
        ⟨[(.valid "m/b/k", [1, 2, 3, 4])]⟩).result
      = .ok ⟨.valid "m/b/k", 2⟩
  ∧ readAll (write_s3 ⟨"b", "m", false⟩ (.valid "k") [9, 9] (.ok ())
        ⟨[(.valid "m/b/k", [1, 2, 3, 4])]⟩).fs ⟨.valid "m/b/k", 2⟩
      = [3, 4]
  ∧ ¬([3, 4] = ([] : Bytes)) := by decide

/-- Claim C9 (amended): a successful `write_s3` returns the local handle
with its cursor at the end of the written data (`buf.length`), not
repositioned to offset 0 (unlike `open_s3`); an immediate read from the
returned handle yields exactly the pre-existing file's bytes beyond the
written data — in particular no bytes whenever no longer file pre-existed
at the mirror path. -/
theorem write_handle_cursor (o : OpenOptions) (k : String) (buf : Bytes)
    (fs : FS) :
    (write_s3 o (.valid k) buf (.ok ()) fs).result
        = .ok ⟨full_data_path o (.valid k), buf.length⟩
      ∧ (buf.length ≠ 0 →
          (Handle.mk (full_data_path o (.valid k)) buf.length).cursor ≠ 0)
      ∧ readAll (write_s3 o (.valid k) buf (.ok ()) fs).fs
            ⟨full_data_path o (.valid k), buf.length⟩
          = ((fs.lookup (full_data_path o (.valid k))).getD
              []).drop buf.length := by
  rw [write_s3_putOk]
  refine ⟨rfl, fun h => h, ?_⟩
  unfold readAll
  rw [FS.lookup_insert, if_pos rfl]
  show (writeAt ((fs.lookup (full_data_path o (.valid k))).getD [])
      0 buf).drop buf.length = _
  rw [writeAt_zero]
  exact List.drop_left buf _

/-- Concrete instance of the write-handle cursor theorem: writing `[5]` to a
fresh key leaves the cursor at 1 and an immediate read yields nothing. -/
theorem write_handle_cursor_witness :
    (write_s3 ⟨"b", "m", false⟩ (.valid "k") [5] (.ok ()) ⟨[]⟩).result
        = .ok ⟨full_data_path ⟨"b", "m", false⟩ (.valid "k"), 1⟩
      ∧ (Handle.mk (full_data_path ⟨"b", "m", false⟩ (.valid "k")) 1).cursor ≠ 0
      ∧ readAll (write_s3 ⟨"b", "m", false⟩ (.valid "k") [5] (.ok ()) ⟨[]⟩).fs
          ⟨full_data_path ⟨"b", "m", false⟩ (.valid "k"), 1⟩
        = ((FS.lookup ⟨[]⟩
            (full_data_path ⟨"b", "m", false⟩ (.valid "k"))).getD []).drop 1 := by
  obtain ⟨h1, h2, h3⟩ := write_handle_cursor ⟨"b", "m", false⟩ "k" [5] ⟨[]⟩
  exact ⟨h1, h2 (by decide), h3⟩

/-- Claim C1 counterexample: with an empty local state, a remote fetch whose
body stream fails mid-download after delivering `[1, 2]` makes `open_s3`
return its error while a file REMAINS at the mirror path, holding the
partial bytes — refuting the claim's mid-download cleanup case. -/
theorem body_stream_error_leaves_file :
    (open_s3 ⟨"b", "m", false⟩ (.valid "k") (.ok ⟨[[1, 2]], true⟩)
        ⟨[]⟩).result = .error .byteStream
      ∧ (open_s3 ⟨"b", "m", false⟩ (.valid "k") (.ok ⟨[[1, 2]], true⟩)
          ⟨[]⟩).fs.lookup (full_data_path ⟨"b", "m", false⟩ (.valid "k"))
        = some [1, 2] := by decide

/-- Claim C1 (amended): when the remote `GetObject` request itself fails in
`open_s3`, and when the remote `PutObject` fails in `write_s3`, the call
removes the file at the key's mirror path and returns the remote error.
(The original claim's further case — a failure while streaming the body
mid-download — is not cleaned up; see the counterexample.) -/
theorem remote_failure_cleanup :
    (∀ (o : OpenOptions) (k : String) (fs : FS) (e : S3FsError),
        (open_s3 o (.valid k) (.error ()) fs).result = .error e →
        (open_s3 o (.valid k) (.error ()) fs).fs.lookup
          (full_data_path o (.valid k)) = none)
  ∧ (∀ (o : OpenOptions) (k : String) (buf : Bytes) (fs : FS),
        (write_s3 o (.valid k) buf (.error ()) fs).result = .error .s3
      ∧ (write_s3 o (.valid k) buf (.error ()) fs).fs.lookup
          (full_data_path o (.valid k)) = none) := by
  constructor
  · intro o k fs e herr
    by_cases hhit : ((fs.lookup (full_data_path o (.valid k))).isSome
        && !o.force_download) = true
    · rw [Bool.and_eq_true] at hhit
      have hf : o.force_download = false := by
        cases hfd : o.force_download
        · rfl
        · rw [hfd] at hhit
          exact absurd hhit.2 (by decide)
      rw [open_s3_hit o k (.error ()) fs hhit.1 hf] at herr
      simp at herr
    · rw [Bool.not_eq_true] at hhit
      rw [open_s3_miss_getErr o k fs hhit]
      rw [FS.lookup_erase, if_pos rfl]
  · intro o k buf fs
    rw [write_s3_putErr]
    refine ⟨rfl, ?_⟩
    rw [FS.lookup_erase, if_pos rfl]

/-- Concrete instance of the remote-failure cleanup theorem: both a failed
fetch and a failed upload of key `"k"` leave no file at `m/b/k`. -/
theorem remote_failure_cleanup_witness :
    (open_s3 ⟨"b", "m", false⟩ (.valid "k") (.error ()) ⟨[]⟩).fs.lookup
        (full_data_path ⟨"b", "m", false⟩ (.valid "k")) = none
      ∧ (write_s3 ⟨"b", "m", false⟩ (.valid "k") [1] (.error ())
          ⟨[]⟩).fs.lookup
        (full_data_path ⟨"b", "m", false⟩ (.valid "k")) = none :=
  ⟨remote_failure_cleanup.1 ⟨"b", "m", false⟩ "k" ⟨[]⟩ .s3 (by decide),
   (remote_failure_cleanup.2 ⟨"b", "m", false⟩ "k" [1] ⟨[]⟩).2⟩

/-- Claim C7 counterexample: `write_s3` on a non-UTF-8 key DOES perform
local I/O — it creates the parent directories — before detecting the
invalid input, refuting the claim's "before any local I/O (including
directory creation)" for `write_s3`. -/
theorem write_s3_mkdir_before_check :
    (write_s3 ⟨"b", "m", false⟩ (.invalid [255]) [1] (.ok ()) ⟨[]⟩).result
        = .error .ioInvalidInput
      ∧ Effect.createDirAll (RPath.invalid [255])
          ∈ (write_s3 ⟨"b", "m", false⟩ (.invalid [255]) [1] (.ok ())
              ⟨[]⟩).effects := by decide

/-- Claim C7 (amended): a non-UTF-8 key makes `open_s3` and `walkdir` fail
with the Invalid-Input error before any local or remote effect at all, and
makes `write_s3` fail with the Invalid-Input error after creating the
parent directories but before opening or creating the mirror file, writing
anything, or issuing any remote call. -/
theorem invalid_input_ordering (o : OpenOptions) (b : List Nat) (buf : Bytes)
    (gresp : GetResp) (presp : PutResp) (lresp : ListResp) (fs : FS) :
    open_s3 o (.invalid b) gresp fs = ⟨.error .ioInvalidInput, fs, []⟩
  ∧ walkdir o (.invalid b) lresp = (.error .ioInvalidInput, [])
  ∧ (write_s3 o (.invalid b) buf presp fs).result = .error .ioInvalidInput
  ∧ (write_s3 o (.invalid b) buf presp fs).fs = fs
  ∧ (write_s3 o (.invalid b) buf presp fs).effects
      = [.createDirAll (RPath.invalid b)]
  ∧ remoteCount (write_s3 o (.invalid b) buf presp fs).effects = 0 :=
  ⟨rfl, rfl, rfl, rfl, rfl, rfl⟩

/-- Claim C4 (code bug): with a longer pre-existing local file `[1, 2, 3, 4]`
at the mirror path, `write_s3` of `[9, 9]` succeeds (and exactly one remote
upload occurs across the write and the subsequent trust-local open), but the
round trip reads back `[9, 9, 3, 4]` — the written bytes plus the stale
tail — because the file is opened without truncation; the crate's own
documentation says the write "will overwrite any files that exist". -/
theorem write_roundtrip_stale_tail :
    (write_s3 ⟨"b", "m", false⟩ (.valid "k") [9, 9] (.ok ())
        ⟨[(.valid "m/b/k", [1, 2, 3, 4])]⟩).result
      = .ok ⟨.valid "m/b/k", 2⟩
  ∧ (open_s3 ⟨"b", "m", false⟩ (.valid "k") (.error ())
        (write_s3 ⟨"b", "m", false⟩ (.valid "k") [9, 9] (.ok ())
          ⟨[(.valid "m/b/k", [1, 2, 3, 4])]⟩).fs).result
      = .ok ⟨.valid "m/b/k", 0⟩
  ∧ readAll
        (open_s3 ⟨"b", "m", false⟩ (.valid "k") (.error ())
          (write_s3 ⟨"b", "m", false⟩ (.valid "k") [9, 9] (.ok ())
            ⟨[(.valid "m/b/k", [1, 2, 3, 4])]⟩).fs).fs
        ⟨.valid "m/b/k", 0⟩
      = [9, 9, 3, 4]
  ∧ ¬([9, 9, 3, 4] = ([9, 9] : Bytes))
  ∧ putCount
        ((write_s3 ⟨"b", "m", false⟩ (.valid "k") [9, 9] (.ok ())
            ⟨[(.valid "m/b/k", [1, 2, 3, 4])]⟩).effects
          ++ (open_s3 ⟨"b", "m", false⟩ (.valid "k") (.error ())
              (write_s3 ⟨"b", "m", false⟩ (.valid "k") [9, 9] (.ok ())
                ⟨[(.valid "m/b/k", [1, 2, 3, 4])]⟩).fs).effects)
      = 1 := by decide

/-- Claim C5 (code bug): with `force_download = true` and stale local
content `[7, 7, 7, 7, 7]` longer than the fresh remote object `[1, 2]`,
`open_s3` succeeds but leaves the mirror file holding `[1, 2, 7, 7, 7]` —
fresh bytes spliced over the stale ones, stale tail surviving — instead of
exactly the fresh content, because the file is opened without truncation. -/
theorem forced_refresh_stale_tail :
    (open_s3 ⟨"b", "m", true⟩ (.valid "k") (.ok ⟨[[1, 2]], false⟩)
        ⟨[(.valid "m/b/k", [7, 7, 7, 7, 7])]⟩).result
      = .ok ⟨.valid "m/b/k", 0⟩
  ∧ (open_s3 ⟨"b", "m", true⟩ (.valid "k") (.ok ⟨[[1, 2]], false⟩)
        ⟨[(.valid "m/b/k", [7, 7, 7, 7, 7])]⟩).fs.lookup (.valid "m/b/k")
      = some [1, 2, 7, 7, 7]
  ∧ ¬([1, 2, 7, 7, 7] = ([1, 2] : Bytes)) := by decide

/-- Claim C6 counterexample: a listed object whose key ends in `/` but whose
reported size is 5 yields a Directory Entry with `folder = true` and
`size = 5`, not 0 — the reported size is passed through, refuting "size is 0
for every folder entry regardless of the size the remote store reported". -/
theorem walkdir_folder_size_not_zeroed :
    walkdir ⟨"b", "m", false⟩ (.valid "") (.ok [⟨some "d/", 5⟩])
      = (.ok [⟨"d/", 5, true⟩], [.remoteList "b" ""])
  ∧ ¬((5 : Int) = 0) := by decide

theorem walkdirLoop_eq_filterMap (objs : List S3Object) :
    walkdirLoop objs
      = objs.filterMap (fun obj => obj.key.map (fun k =>
          DirEntry.mk k obj.size (decide (k.data.getLast? = some '/')))) := by
  induction objs with
  | nil => rfl
  | cons obj rest ih =>
    cases hk : obj.key with
    | none =>
      rw [walkdirLoop, hk]
      simp [List.filterMap_cons, hk, ih]
    | some k =>
      rw [walkdirLoop, hk]
      simp [List.filterMap_cons, hk, ih, strEndsWith_slash_eq_decide]

/-- Claim C6 (amended): for every listed object with a retrievable key,
`walkdir` emits — in listing order — exactly one Directory Entry carrying
that key, the store-reported size verbatim (folder entries included), and a
folder flag that is true exactly when the key's last character is `/`;
objects with no retrievable key are skipped.  Stated as an equality with an
independent `filterMap` formulation whose folder flag is the decidable
last-character test. -/
theorem walkdir_entry_derivation (o : OpenOptions) (p : String)
    (objs : List S3Object) :
    (walkdir o (.valid p) (.ok objs)).1
      = .ok (objs.filterMap (fun obj => obj.key.map (fun k =>
          DirEntry.mk k obj.size (decide (k.data.getLast? = some '/'))))) := by
  rw [walkdir_listOk]
  show Except.ok (walkdirLoop objs) = _
  rw [walkdirLoop_eq_filterMap]

/-- Claim C3 (confirmed): the key `open_s3` and `write_s3` send to the
remote store is the forward-slash-normalized form of the supplied key (no
backslash survives normalization), and — on a platform where the backslash
is a local-native path separator alongside `/` — a key and its normalized
form resolve to the same local mirror path (equal path components under the
`winSep` separator set). -/
theorem key_separator_normalization :
    (∀ (o : OpenOptions) (k : String) (resp : GetResp) (fs : FS)
        (bkt q : String),
        Effect.remoteGet bkt q ∈ (open_s3 o (.valid k) resp fs).effects →
        q = normalizeKey k)
  ∧ (∀ (o : OpenOptions) (k : String) (buf : Bytes) (resp : PutResp)
        (fs : FS) (bkt q : String) (body : Bytes),
        Effect.remotePut bkt q body
            ∈ (write_s3 o (.valid k) buf resp fs).effects →
        q = normalizeKey k)
  ∧ (∀ k : String, '\\' ∈ (normalizeKey k).data → False)
  ∧ (∀ (o : OpenOptions) (k : String),
        componentsOf winSep (mirrorStr o k)
          = componentsOf winSep (mirrorStr o (normalizeKey k))) := by
  refine ⟨?_, ?_, ?_, ?_⟩
  · intro o k resp fs bkt q hmem
    by_cases hhit : ((fs.lookup (full_data_path o (.valid k))).isSome
        && !o.force_download) = true
    · rw [Bool.and_eq_true] at hhit
      have hf : o.force_download = false := by
        cases hfd : o.force_download
        · rfl
        · rw [hfd] at hhit
          exact absurd hhit.2 (by decide)
      rw [open_s3_hit o k resp fs hhit.1 hf] at hmem
      simp at hmem
    · rw [Bool.not_eq_true] at hhit
      cases resp with
      | error u =>
        cases u
        rw [open_s3_miss_getErr o k fs hhit] at hmem
        simp at hmem
        exact hmem.2
      | ok g =>
        cases hb : g.bodyErr
        · rw [open_s3_miss_ok o k g fs hhit hb] at hmem
          simp at hmem
          exact hmem.2
        · rw [open_s3_miss_bodyErr o k g fs hhit hb] at hmem
          simp at hmem
          exact hmem.2
  · intro o k buf resp fs bkt q body hmem
    cases resp with
    | error u =>
      cases u
      rw [write_s3_putErr] at hmem
      simp at hmem
      exact hmem.2.1
    | ok u =>
      cases u
      rw [write_s3_putOk] at hmem
      simp at hmem
      exact hmem.2.1
  · intro k hmem
    have hdata : (normalizeKey k).data = k.data.map normChar := rfl
    rw [hdata, List.mem_map] at hmem
    obtain ⟨c, _, hc⟩ := hmem
    by_cases h : c = '\\'
    · rw [h] at hc
      exact absurd hc (by decide)
    · have hid : normChar c = c := by simp [normChar, h]
      rw [hid] at hc
      exact h hc
  · intro o k
    unfold componentsOf
    have h1 : (mirrorStr o k).data
        = (o.mount_path ++ "/" ++ o.bucket ++ "/").data ++ k.data := by
      unfold mirrorStr
      rw [String.data_append]
    have h2 : (mirrorStr o (normalizeKey k)).data
        = (o.mount_path ++ "/" ++ o.bucket ++ "/").data
            ++ k.data.map normChar := by
      unfold mirrorStr
      rw [String.data_append]
      rfl
    rw [h1, h2]
    congr 1
    exact splitSeps_append_congr winSep _ _ _ (splitSeps_map_normChar k.data).symm

/-- Concrete instance of the key normalization theorem: a forced-refresh
`open_s3` of the key `"a\\b"` sends the remote store the key `"a/b"`. -/
theorem key_separator_normalization_witness :
    ("a/b" : String) = normalizeKey "a\\b" :=
  key_separator_normalization.1 ⟨"b", "m", true⟩ "a\\b" (.error ()) ⟨[]⟩
    "b" "a/b" (by decide)

/-- Claim C10 (confirmed): `walkdir` passes the UTF-8 prefix to the remote
listing request verbatim — whatever separators it contains — while the key
normalization `open_s3`/`write_s3` apply is not the identity on
backslashed strings. -/
theorem walkdir_pfx_verbatim :
    (∀ (o : OpenOptions) (p : String) (resp : ListResp) (bkt q : String),
        Effect.remoteList bkt q ∈ (walkdir o (.valid p) resp).2 →
        bkt = o.bucket ∧ q = p)
  ∧ normalizeKey "a\\b" ≠ "a\\b" := by
  constructor
  · intro o p resp bkt q hmem
    cases resp with
    | error u =>
      cases u
      rw [walkdir_listErr] at hmem
      simpa using hmem
    | ok objs =>
      rw [walkdir_listOk] at hmem
      simpa using hmem
  · decide

/-- Concrete instance of the verbatim-prefix theorem: listing with the
backslashed prefix `"x\\y"` sends exactly `"x\\y"`. -/
theorem walkdir_pfx_verbatim_witness :
    ("b" : String) = (OpenOptions.mk "b" "m" false).bucket
      ∧ ("x\\y" : String) = "x\\y" :=
  walkdir_pfx_verbatim.1 ⟨"b", "m", false⟩ "x\\y" (.ok []) "b" "x\\y"
    (by decide)
